import Mathlib

/-!
# Verification of the OCI driver's state-convergence waiter

Shallow embedding of `builder/oracle/oci/driver_oci.go`.  The polling loop
`waitForResourceToReachState` is embedded as a fuel-indexed function: the
fuel bounds how many loop iterations are simulated, and `none` means the
simulated run did not terminate within the given fuel.  The remote provider
is modelled as a time-indexed oracle: the accessor receives the index of the
poll (the external world may answer differently on each call) together with
the resource id the Go code passes to it.  Each sleep in the Go code lasts
`waitDuration` milliseconds; the trace records the number of polls, the
number of sleeps and the total milliseconds slept.
-/

/-- Outcome of one waiter run, mirroring the Go `error` return:
`ok` is the `nil` error (success), `err msg` carries the error message. -/
inductive WaitOutcome where
  | ok : WaitOutcome
  | err : String → WaitOutcome
  deriving Repr, DecidableEq

/-- Observable trace of a terminated waiter run: the returned outcome, the
number of accessor calls made, the number of sleeps performed, and the total
milliseconds slept (each sleep is `waitDuration` ms). -/
structure WaitTrace where
  result : WaitOutcome
  polls : Nat
  sleeps : Nat
  sleptMs : Nat
  deriving Repr, DecidableEq

/-- `stringSliceContains` from driver_oci.go: loops through a slice of
strings returning whether a given value is in the slice. -/
def stringSliceContains (slice : List String) (value : String) : Bool :=
  match slice with
  | [] => false
  | elem :: rest => if elem = value then true else stringSliceContains rest value

/-- Go's `%s` rendering of a `[]string`, as used by `fmt.Errorf` in the
unexpected-state message: elements space-separated inside brackets. -/
def goStringSlice (xs : List String) : String :=
  "[" ++ String.intercalate " " xs ++ "]"

/-- The message built at driver_oci.go:171:
`fmt.Errorf("Unexpected resource state %s, expecting a waiting state %s or terminal state  %s ", state, waitStates, terminalState)`
(note the double space and the trailing space of the original format). -/
def unexpectedStateMsg (state : String) (waitStates : List String) (terminalState : String) : String :=
  "Unexpected resource state " ++ state ++ ", expecting a waiting state " ++
    goStringSlice waitStates ++ " or terminal state  " ++ terminalState ++ " "

/-- The message built at driver_oci.go:174:
`fmt.Errorf("Maximum number of retries (%d) exceeded; resource did not reach state %s", maxRetries, terminalState)`. -/
def maxRetriesMsg (maxRetries : Int) (terminalState : String) : String :=
  "Maximum number of retries (" ++ toString maxRetries ++
    ") exceeded; resource did not reach state " ++ terminalState

/-- The `for` loop of `waitForResourceToReachState` (driver_oci.go:156-172),
entered at loop counter `i` with `fuel` iterations of budget.  The loop
condition `maxRetries == 0 || i < maxRetries` guards each iteration; when it
fails the exhaustion error at line 174 is returned without a further poll.
Inside an iteration the accessor is polled, an accessor error is returned
verbatim, a waiting state sleeps and continues, the terminal state returns
`nil`, and any other state returns the unexpected-state error.  At the head
of iteration `i` exactly `i` polls and `i` sleeps have happened, which the
returned trace uses.  `none` means the budget ran out mid-loop. -/
def waitLoop (GetResourceState : Nat → String → Except String String) (id : String)
    (waitStates : List String) (terminalState : String)
    (maxRetries : Int) (waitDuration : Nat) : Nat → Nat → Option WaitTrace
  | 0, i =>
    if maxRetries = 0 ∨ (i : Int) < maxRetries then
      none
    else
      some ⟨.err (maxRetriesMsg maxRetries terminalState), i, i, i * waitDuration⟩
  | fuel + 1, i =>
    if maxRetries = 0 ∨ (i : Int) < maxRetries then
      match GetResourceState i id with
      | .error e => some ⟨.err e, i + 1, i, i * waitDuration⟩
      | .ok state =>
        if stringSliceContains waitStates state then
          waitLoop GetResourceState id waitStates terminalState maxRetries waitDuration fuel (i + 1)
        else if state = terminalState then
          some ⟨.ok, i + 1, i, i * waitDuration⟩
        else
          some ⟨.err (unexpectedStateMsg state waitStates terminalState), i + 1, i, i * waitDuration⟩
    else
      some ⟨.err (maxRetriesMsg maxRetries terminalState), i, i, i * waitDuration⟩

/-- `waitForResourceToReachState` (driver_oci.go:155-175): run the polling
loop from `i = 0`.  `fuel` is the simulation budget of the embedding, not a
parameter of the Go function. -/
def waitForResourceToReachState (fuel : Nat)
    (GetResourceState : Nat → String → Except String String) (id : String)
    (waitStates : List String) (terminalState : String)
    (maxRetries : Int) (waitDuration : Nat) : Option WaitTrace :=
  waitLoop GetResourceState id waitStates terminalState maxRetries waitDuration fuel 0

/-- The fields of `core.Image` the driver reads. -/
structure Image where
  LifecycleState : String
  deriving Repr, DecidableEq

/-- `WaitForImageCreation` (driver_oci.go:118-133): waits for a provisioning
custom image to reach the "AVAILABLE" state.  `GetImage` models the
provider's get-image call, indexed by the time of the call. -/
def WaitForImageCreation (fuel : Nat) (GetImage : Nat → String → Except String Image)
    (id : String) : Option WaitTrace :=
  waitForResourceToReachState fuel
    (fun t (_ : String) =>
      match GetImage t id with
      | .error e => .error e
      | .ok image => .ok image.LifecycleState)
    id
    ["PROVISIONING"]
    "AVAILABLE"
    0
    5000

/-- The field of `core.VnicAttachment` the driver reads. -/
structure VnicAttachment where
  VnicId : String
  deriving Repr, DecidableEq

/-- The fields of `core.Vnic` the driver reads. -/
structure Vnic where
  PrivateIp : String
  PublicIp : String
  deriving Repr, DecidableEq

/-- `GetInstanceIP` (driver_oci.go:79-104).  `ListVnicAttachments` and
`GetVnic` model the two provider calls.  The second component of the result
counts the `GetVnic` calls made, so that "no VNIC lookup happens" is
observable.  The Go guard `len(vnics.Items) < 1` is the empty-list case. -/
def GetInstanceIP (ListVnicAttachments : String → Except String (List VnicAttachment))
    (GetVnic : String → Except String Vnic)
    (usePrivateIP : Bool) (id : String) : Except String String × Nat :=
  match ListVnicAttachments id with
  | .error e => (.error e, 0)
  | .ok [] => (.error "instance has zero VNICs", 0)
  | .ok (vnicAttachment :: _) =>
    match GetVnic vnicAttachment.VnicId with
    | .error e => (.error ("Error getting VNIC details: " ++ e), 1)
    | .ok vnic =>
      (if usePrivateIP then .ok vnic.PrivateIp else .ok vnic.PublicIp, 1)

/-- Whether the character list `p` is an initial segment of `s`. -/
def listStartsWith : List Char → List Char → Bool
  | [], _ => true
  | _ :: _, [] => false
  | a :: p, b :: s => a = b && listStartsWith p s

/-- Whether the character list `p` occurs contiguously inside `s`. -/
def listHasSub (p : List Char) : List Char → Bool
  | [] => listStartsWith p []
  | b :: t => listStartsWith p (b :: t) || listHasSub p t

/-- Whether `pat` occurs as a contiguous substring of `s`. -/
def strHasSub (s pat : String) : Bool :=
  listHasSub pat.data s.data

/-- Concrete accessor for witnesses: two waiting answers, then the terminal
state. -/
def accW1 : Nat → String → Except String String :=
  fun t _ => if t < 2 then .ok "PROVISIONING" else .ok "AVAILABLE"

/-- Concrete accessor for witnesses: always the state "TERMINATED". -/
def accBad : Nat → String → Except String String :=
  fun _ _ => .ok "TERMINATED"

/-- Concrete accessor for witnesses: always the waiting state
"PROVISIONING". -/
def accWait : Nat → String → Except String String :=
  fun _ _ => .ok "PROVISIONING"

/-- Concrete accessor for witnesses: always the state "RUNNING". -/
def accRunning : Nat → String → Except String String :=
  fun _ _ => .ok "RUNNING"

/-- Concrete accessor for witnesses: one waiting answer, then an accessor
failure. -/
def accErr : Nat → String → Except String String :=
  fun t _ => if t < 1 then .ok "PROVISIONING" else .error "boom"

/-- Concrete accessor for witnesses: seven waiting answers, then the
terminal state. -/
def accW7 : Nat → String → Except String String :=
  fun t _ => if t < 7 then .ok "PROVISIONING" else .ok "AVAILABLE"

/-!
## Step lemmas for the polling loop

Each lemma unfolds one iteration of `waitLoop`, following the branches of
the Go loop body, and the run lemma chains waiting iterations.
-/

section WaiterLemmas

variable {acc : Nat → String → Except String String} {id : String}
variable {ws : List String} {term : String} {mr : Int} {wd : Nat}

/-- When the loop condition fails at the head of iteration `i`, the
exhaustion error is returned without polling, whatever the budget. -/
theorem waitLoop_cond_fail (fuel i : Nat) (h : ¬(mr = 0 ∨ (i : Int) < mr)) :
    waitLoop acc id ws term mr wd fuel i =
      some ⟨.err (maxRetriesMsg mr term), i, i, i * wd⟩ := by
  cases fuel <;> simp [waitLoop, h]

/-- An accessor error at iteration `i` is returned verbatim. -/
theorem waitLoop_err_step (fuel i : Nat) (e : String)
    (hc : mr = 0 ∨ (i : Int) < mr) (he : acc i id = .error e) :
    waitLoop acc id ws term mr wd (fuel + 1) i =
      some ⟨.err e, i + 1, i, i * wd⟩ := by
  simp [waitLoop, hc, he]

/-- A waiting state at iteration `i` sleeps and continues with the counter
advanced and one unit of budget consumed. -/
theorem waitLoop_wait_step (fuel i : Nat) (s : String)
    (hc : mr = 0 ∨ (i : Int) < mr) (hs : acc i id = .ok s)
    (hw : stringSliceContains ws s = true) :
    waitLoop acc id ws term mr wd (fuel + 1) i =
      waitLoop acc id ws term mr wd fuel (i + 1) := by
  simp [waitLoop, hc, hs, hw]

/-- The terminal state at iteration `i` (when not a waiting state) returns
success. -/
theorem waitLoop_term_step (fuel i : Nat)
    (hc : mr = 0 ∨ (i : Int) < mr) (hs : acc i id = .ok term)
    (hw : stringSliceContains ws term = false) :
    waitLoop acc id ws term mr wd (fuel + 1) i =
      some ⟨.ok, i + 1, i, i * wd⟩ := by
  simp [waitLoop, hc, hs, hw]

/-- A state outside the waiting set and different from the terminal state
returns the unexpected-state error. -/
theorem waitLoop_bad_step (fuel i : Nat) (s : String)
    (hc : mr = 0 ∨ (i : Int) < mr) (hs : acc i id = .ok s)
    (hw : stringSliceContains ws s = false) (hne : s ≠ term) :
    waitLoop acc id ws term mr wd (fuel + 1) i =
      some ⟨.err (unexpectedStateMsg s ws term), i + 1, i, i * wd⟩ := by
  simp [waitLoop, hc, hs, hw, hne]

/-- Running through `n` consecutive waiting polls consumes `n` units of
budget and advances the loop counter by `n`. -/
theorem waitLoop_run (n : Nat) :
    ∀ i fuel : Nat,
      (∀ t, t < n → ∃ s, acc (i + t) id = .ok s ∧ stringSliceContains ws s = true) →
      (∀ t, t < n → (mr = 0 ∨ ((i + t : Nat) : Int) < mr)) →
      waitLoop acc id ws term mr wd (n + fuel) i =
        waitLoop acc id ws term mr wd fuel (i + n) := by
  induction n with
  | zero => intro i fuel _ _; simp
  | succ n ih =>
    intro i fuel hw hc
    obtain ⟨s, hs, hss⟩ := hw 0 (Nat.succ_pos n)
    have hc0 : mr = 0 ∨ (i : Int) < mr := by simpa using hc 0 (Nat.succ_pos n)
    have hstep : waitLoop acc id ws term mr wd (n + fuel + 1) i =
        waitLoop acc id ws term mr wd (n + fuel) (i + 1) :=
      waitLoop_wait_step (n + fuel) i s hc0 (by simpa using hs) hss
    have hrec := ih (i + 1) fuel
      (fun t ht => by
        have := hw (t + 1) (by omega)
        simpa [Nat.add_assoc, Nat.add_comm 1 t] using this)
      (fun t ht => by
        have := hc (t + 1) (by omega)
        simpa [Nat.add_assoc, Nat.add_comm 1 t] using this)
    calc waitLoop acc id ws term mr wd (n + 1 + fuel) i
        = waitLoop acc id ws term mr wd (n + fuel + 1) i := by
          rw [Nat.add_right_comm]
      _ = waitLoop acc id ws term mr wd (n + fuel) (i + 1) := hstep
      _ = waitLoop acc id ws term mr wd fuel (i + 1 + n) := hrec
      _ = waitLoop acc id ws term mr wd fuel (i + (n + 1)) := by
          rw [Nat.add_right_comm, Nat.add_assoc]

/-- Success run: `N` waiting polls followed by the terminal state give
success with `N + 1` polls and `N` sleeps, provided the budget covers the
`N + 1` polls and the retry bound is `0` or exceeds `N`. -/
theorem waiter_success_aux (N fuel : Nat) (hfuel : N + 1 ≤ fuel)
    (hN : ∀ t, t < N → ∃ s, acc t id = .ok s ∧ stringSliceContains ws s = true)
    (hT : acc N id = .ok term) (hTW : stringSliceContains ws term = false)
    (hmr : mr = 0 ∨ (N : Int) < mr) :
    waitForResourceToReachState fuel acc id ws term mr wd =
      some ⟨.ok, N + 1, N, N * wd⟩ := by
  obtain ⟨j, rfl⟩ : ∃ j, fuel = N + (j + 1) := ⟨fuel - (N + 1), by omega⟩
  unfold waitForResourceToReachState
  rw [waitLoop_run N 0 (j + 1)
      (fun t ht => by simpa using hN t ht)
      (fun t ht => by
        rcases hmr with h0 | hlt
        · exact Or.inl h0
        · right; simp only [Nat.zero_add]; omega)]
  rw [Nat.zero_add]
  exact waitLoop_term_step j N hmr hT hTW

/-- Exhaustion run: with a positive bound `k` and `k` waiting polls the
loop condition fails at counter `k` and the exhaustion error is returned
after exactly `k` polls and `k` sleeps. -/
theorem waiter_exhaust_aux (k : Nat) (fuel : Nat) (hk : 0 < k)
    (hmr : mr = (k : Int)) (hfuel : k ≤ fuel)
    (hW : ∀ t, t < k → ∃ s, acc t id = .ok s ∧ stringSliceContains ws s = true) :
    waitForResourceToReachState fuel acc id ws term mr wd =
      some ⟨.err (maxRetriesMsg mr term), k, k, k * wd⟩ := by
  obtain ⟨j, rfl⟩ : ∃ j, fuel = k + j := ⟨fuel - k, by omega⟩
  unfold waitForResourceToReachState
  rw [waitLoop_run k 0 j
      (fun t ht => by simpa using hW t ht)
      (fun t ht => by right; simp only [Nat.zero_add]; omega)]
  rw [Nat.zero_add]
  exact waitLoop_cond_fail j k (by omega)

/-- With an unbounded retry count and an accessor that always answers with
a waiting state, the loop never terminates: every budget runs out. -/
theorem waiter_unbounded_waiting_aux (hmr : mr = 0)
    (hW : ∀ t, ∃ s, acc t id = .ok s ∧ stringSliceContains ws s = true) :
    ∀ fuel i : Nat, waitLoop acc id ws term mr wd fuel i = none := by
  intro fuel
  induction fuel with
  | zero => intro i; simp [waitLoop, hmr]
  | succ fuel ih =>
    intro i
    obtain ⟨s, hs, hss⟩ := hW i
    rw [waitLoop_wait_step fuel i s (Or.inl hmr) hs hss]
    exact ih (i + 1)

end WaiterLemmas

/-!
## Substring lemmas

Used to state that an error message names a given state: the message is a
concatenation with the state in the middle, hence a substring hit.
-/

/-- A list is an initial segment of itself followed by anything. -/
theorem listStartsWith_append (p c : List Char) : listStartsWith p (p ++ c) = true := by
  induction p with
  | nil => simp [listStartsWith]
  | cons a p ih => simp [listStartsWith, ih]

/-- An initial segment is in particular a contiguous sub-list. -/
theorem listHasSub_of_startsWith {p s : List Char} (h : listStartsWith p s = true) :
    listHasSub p s = true := by
  cases s <;> simp [listHasSub, h]

/-- A contiguous sub-list of the tail is one of the whole list. -/
theorem listHasSub_cons {p t : List Char} (b : Char) (h : listHasSub p t = true) :
    listHasSub p (b :: t) = true := by
  simp [listHasSub, h]

/-- The middle part of a concatenation is a contiguous sub-list. -/
theorem listHasSub_append (a p c : List Char) : listHasSub p (a ++ p ++ c) = true := by
  induction a with
  | nil => simpa using listHasSub_of_startsWith (listStartsWith_append p c)
  | cons b a ih => simpa using listHasSub_cons b ih

/-- A string whose character data splits around `pat` has `pat` as a
substring. -/
theorem strHasSub_split (s pat : String) (x z : List Char)
    (h : s.data = x ++ pat.data ++ z) : strHasSub s pat = true := by
  unfold strHasSub
  rw [h]
  exact listHasSub_append x pat.data z

/-- The unexpected-state message names the observed state. -/
theorem unexpectedStateMsg_names_state (s : String) (ws : List String) (t : String) :
    strHasSub (unexpectedStateMsg s ws t) s = true := by
  apply strHasSub_split _ _ ("Unexpected resource state ".data)
    ((", expecting a waiting state " ++ goStringSlice ws ++
      " or terminal state  " ++ t ++ " ").data)
  simp [unexpectedStateMsg, String.data_append, List.append_assoc]

/-- The unexpected-state message names the waiting-state set. -/
theorem unexpectedStateMsg_names_waiting (s : String) (ws : List String) (t : String) :
    strHasSub (unexpectedStateMsg s ws t) (goStringSlice ws) = true := by
  apply strHasSub_split _ _
    (("Unexpected resource state " ++ s ++ ", expecting a waiting state ").data)
    ((" or terminal state  " ++ t ++ " ").data)
  simp [unexpectedStateMsg, String.data_append, List.append_assoc]

/-- The unexpected-state message names the terminal state. -/
theorem unexpectedStateMsg_names_terminal (s : String) (ws : List String) (t : String) :
    strHasSub (unexpectedStateMsg s ws t) t = true := by
  apply strHasSub_split _ _
    (("Unexpected resource state " ++ s ++ ", expecting a waiting state " ++
      goStringSlice ws ++ " or terminal state  ").data)
    (" ".data)
  simp [unexpectedStateMsg, String.data_append, List.append_assoc]

/-- The exhaustion message names the configured retry bound. -/
theorem maxRetriesMsg_names_bound (mr : Int) (t : String) :
    strHasSub (maxRetriesMsg mr t) (toString mr) = true := by
  apply strHasSub_split _ _ ("Maximum number of retries (".data)
    ((") exceeded; resource did not reach state " ++ t).data)
  simp [maxRetriesMsg, String.data_append, List.append_assoc]

/-- The exhaustion message names the terminal state. -/
theorem maxRetriesMsg_names_terminal (mr : Int) (t : String) :
    strHasSub (maxRetriesMsg mr t) t = true := by
  apply strHasSub_split _ _
    (("Maximum number of retries (" ++ toString mr ++
      ") exceeded; resource did not reach state ").data)
    ([])
  simp [maxRetriesMsg, String.data_append, List.append_assoc]

/-- The run of the loop, and hence every message it synthesizes, does not
depend on the resource id when the accessor ignores the id it is handed. -/
theorem waitLoop_id_irrel (f : Nat → Except String String) (id₁ id₂ : String)
    (ws : List String) (term : String) (mr : Int) (wd : Nat) :
    ∀ fuel i : Nat,
      waitLoop (fun t _ => f t) id₁ ws term mr wd fuel i =
        waitLoop (fun t _ => f t) id₂ ws term mr wd fuel i := by
  intro fuel
  induction fuel with
  | zero => intro i; rfl
  | succ fuel ih =>
    intro i
    by_cases hc : mr = 0 ∨ (i : Int) < mr
    · simp only [waitLoop, if_pos hc]
      cases h : f i with
      | error e => rfl
      | ok s =>
        by_cases hw : stringSliceContains ws s
        · simp [hw, ih]
        · simp [hw]
    · simp only [waitLoop, if_neg hc]

/-!
## The claims
-/

/-- C1: for every wait specification whose accessor returns a state in the
waiting set on each of its first `N` polls and the terminal state — itself
not a waiting state — on poll `N + 1`, with `maxRetries` either `0` or
greater than `N`, `waitForResourceToReachState` succeeds after exactly
`N + 1` accessor calls and exactly `N` sleeps of the configured delay
(`N * wd` ms in total); the case `N = 0` is success after one poll and zero
sleeps. -/
theorem waiter_succeeds_after_waits
    (acc : Nat → String → Except String String) (id : String)
    (ws : List String) (term : String) (mr : Int) (wd : Nat)
    (N fuel : Nat) (hfuel : N + 1 ≤ fuel)
    (hN : ∀ t, t < N → ∃ s, acc t id = .ok s ∧ stringSliceContains ws s = true)
    (hT : acc N id = .ok term)
    (hTW : stringSliceContains ws term = false)
    (hmr : mr = 0 ∨ (N : Int) < mr) :
    waitForResourceToReachState fuel acc id ws term mr wd =
      some ⟨.ok, N + 1, N, N * wd⟩ :=
  waiter_success_aux N fuel hfuel hN hT hTW hmr

/-- C1 witness: two waiting polls then the terminal state, unbounded
retries — success after three polls and two 5000 ms sleeps. -/
theorem waiter_succeeds_after_waits_witness :
    (∀ t, t < 2 → ∃ s, accW1 t "ocid1.instance.w1" = Except.ok s ∧
        stringSliceContains ["PROVISIONING"] s = true) ∧
    accW1 2 "ocid1.instance.w1" = Except.ok "AVAILABLE" ∧
    stringSliceContains ["PROVISIONING"] "AVAILABLE" = false ∧
    waitForResourceToReachState 5 accW1 "ocid1.instance.w1"
        ["PROVISIONING"] "AVAILABLE" 0 5000 =
      some ⟨.ok, 3, 2, 10000⟩ := by
  have hN : ∀ t, t < 2 → ∃ s, accW1 t "ocid1.instance.w1" = Except.ok s ∧
      stringSliceContains ["PROVISIONING"] s = true :=
    fun t ht => ⟨"PROVISIONING", by simp [accW1, ht], rfl⟩
  exact ⟨hN, rfl, rfl,
    waiter_succeeds_after_waits accW1 "ocid1.instance.w1" ["PROVISIONING"]
      "AVAILABLE" 0 5000 2 5 (by omega) hN rfl rfl (Or.inl rfl)⟩

/-- C2: if the accessor answers waiting states on its first `N` polls and
an error on poll `N + 1` (reachable under the retry bound), the waiter
returns exactly that error, unwrapped, having made `N + 1` polls and `N`
sleeps: no further poll and no further sleep happen after the error. -/
theorem waiter_propagates_accessor_error
    (acc : Nat → String → Except String String) (id : String)
    (ws : List String) (term : String) (mr : Int) (wd : Nat)
    (N fuel : Nat) (e : String) (hfuel : N + 1 ≤ fuel)
    (hN : ∀ t, t < N → ∃ s, acc t id = .ok s ∧ stringSliceContains ws s = true)
    (hE : acc N id = .error e)
    (hmr : mr = 0 ∨ (N : Int) < mr) :
    waitForResourceToReachState fuel acc id ws term mr wd =
      some ⟨.err e, N + 1, N, N * wd⟩ := by
  obtain ⟨j, rfl⟩ : ∃ j, fuel = N + (j + 1) := ⟨fuel - (N + 1), by omega⟩
  unfold waitForResourceToReachState
  rw [waitLoop_run N 0 (j + 1)
      (fun t ht => by simpa using hN t ht)
      (fun t ht => by
        rcases hmr with h0 | hlt
        · exact Or.inl h0
        · right; simp only [Nat.zero_add]; omega)]
  rw [Nat.zero_add]
  exact waitLoop_err_step j N e hmr hE

/-- C2 witness: one waiting poll then the accessor failure "boom" —
the waiter returns "boom" verbatim after two polls and one sleep. -/
theorem waiter_propagates_accessor_error_witness :
    (∀ t, t < 1 → ∃ s, accErr t "ocid1.instance.w2" = Except.ok s ∧
        stringSliceContains ["PROVISIONING"] s = true) ∧
    accErr 1 "ocid1.instance.w2" = Except.error "boom" ∧
    waitForResourceToReachState 9 accErr "ocid1.instance.w2"
        ["PROVISIONING"] "AVAILABLE" 0 5000 =
      some ⟨.err "boom", 2, 1, 5000⟩ := by
  have hN : ∀ t, t < 1 → ∃ s, accErr t "ocid1.instance.w2" = Except.ok s ∧
      stringSliceContains ["PROVISIONING"] s = true :=
    fun t ht => ⟨"PROVISIONING", by simp [accErr, ht], rfl⟩
  exact ⟨hN, rfl,
    waiter_propagates_accessor_error accErr "ocid1.instance.w2" ["PROVISIONING"]
      "AVAILABLE" 0 5000 1 9 "boom" (by omega) hN rfl (Or.inl rfl)⟩

/-- C3: if the accessor's first answer is a state neither in the waiting
set nor equal to the terminal state (and the loop is entered at all), the
waiter fails on that same poll with zero sleeps, and the returned
unexpected-state message names the observed state, the waiting-state set
and the terminal state. -/
theorem waiter_fails_fast_on_unexpected_state
    (acc : Nat → String → Except String String) (id : String)
    (ws : List String) (term : String) (mr : Int) (wd : Nat)
    (fuel : Nat) (s : String) (hfuel : 1 ≤ fuel)
    (hS : acc 0 id = .ok s)
    (hw : stringSliceContains ws s = false)
    (hne : s ≠ term)
    (hmr : mr = 0 ∨ (0 : Int) < mr) :
    waitForResourceToReachState fuel acc id ws term mr wd =
      some ⟨.err (unexpectedStateMsg s ws term), 1, 0, 0⟩ ∧
    strHasSub (unexpectedStateMsg s ws term) s = true ∧
    strHasSub (unexpectedStateMsg s ws term) (goStringSlice ws) = true ∧
    strHasSub (unexpectedStateMsg s ws term) term = true := by
  obtain ⟨j, rfl⟩ : ∃ j, fuel = j + 1 := ⟨fuel - 1, by omega⟩
  refine ⟨?_, unexpectedStateMsg_names_state s ws term,
    unexpectedStateMsg_names_waiting s ws term,
    unexpectedStateMsg_names_terminal s ws term⟩
  unfold waitForResourceToReachState
  have h : waitLoop acc id ws term mr wd (j + 1) 0 =
      some ⟨.err (unexpectedStateMsg s ws term), 0 + 1, 0, 0 * wd⟩ :=
    waitLoop_bad_step j 0 s (by simpa using hmr) hS hw hne
  simpa using h

/-- C3 witness: waiting set {"PROVISIONING"}, terminal "AVAILABLE",
first observation "TERMINATED" — immediate unexpected-state failure with
zero sleeps, message naming all three. -/
theorem waiter_fails_fast_on_unexpected_state_witness :
    accBad 0 "ocid1.instance.w3" = Except.ok "TERMINATED" ∧
    stringSliceContains ["PROVISIONING"] "TERMINATED" = false ∧
    "TERMINATED" ≠ "AVAILABLE" ∧
    (waitForResourceToReachState 4 accBad "ocid1.instance.w3"
        ["PROVISIONING"] "AVAILABLE" 0 5000 =
      some ⟨.err (unexpectedStateMsg "TERMINATED" ["PROVISIONING"] "AVAILABLE"), 1, 0, 0⟩ ∧
    strHasSub (unexpectedStateMsg "TERMINATED" ["PROVISIONING"] "AVAILABLE") "TERMINATED" = true ∧
    strHasSub (unexpectedStateMsg "TERMINATED" ["PROVISIONING"] "AVAILABLE")
      (goStringSlice ["PROVISIONING"]) = true ∧
    strHasSub (unexpectedStateMsg "TERMINATED" ["PROVISIONING"] "AVAILABLE") "AVAILABLE" = true) :=
  ⟨rfl, rfl, by decide,
    waiter_fails_fast_on_unexpected_state accBad "ocid1.instance.w3"
      ["PROVISIONING"] "AVAILABLE" 0 5000 4 "TERMINATED" (by omega) rfl rfl
      (by decide) (Or.inl rfl)⟩

/-- C4: with retry bound `k > 0` and an accessor that answers a waiting
state on every poll, the waiter makes exactly `k` polls (and `k` sleeps)
and returns the retry-exhaustion error, whose message names the configured
bound and the terminal state. -/
theorem waiter_exhausts_bounded_retries
    (acc : Nat → String → Except String String) (id : String)
    (ws : List String) (term : String) (mr : Int) (wd : Nat)
    (k fuel : Nat) (hk : 0 < k) (hmr : mr = (k : Int)) (hfuel : k ≤ fuel)
    (hW : ∀ t, ∃ s, acc t id = .ok s ∧ stringSliceContains ws s = true) :
    waitForResourceToReachState fuel acc id ws term mr wd =
      some ⟨.err (maxRetriesMsg mr term), k, k, k * wd⟩ ∧
    strHasSub (maxRetriesMsg mr term) (toString mr) = true ∧
    strHasSub (maxRetriesMsg mr term) term = true :=
  ⟨waiter_exhaust_aux k fuel hk hmr hfuel (fun t _ => hW t),
    maxRetriesMsg_names_bound mr term, maxRetriesMsg_names_terminal mr term⟩

/-- C4 witness: bound 3 with an accessor stuck on "PROVISIONING" — three
polls, three sleeps, and the exhaustion message naming 3 and "AVAILABLE". -/
theorem waiter_exhausts_bounded_retries_witness :
    (0 : Nat) < 3 ∧ (3 : Int) = ((3 : Nat) : Int) ∧
    (∀ t, ∃ s, accWait t "ocid1.instance.w4" = Except.ok s ∧
        stringSliceContains ["PROVISIONING"] s = true) ∧
    (waitForResourceToReachState 9 accWait "ocid1.instance.w4"
        ["PROVISIONING"] "AVAILABLE" ((3 : Nat) : Int) 5000 =
      some ⟨.err (maxRetriesMsg ((3 : Nat) : Int) "AVAILABLE"), 3, 3, 15000⟩ ∧
    strHasSub (maxRetriesMsg ((3 : Nat) : Int) "AVAILABLE") (toString ((3 : Nat) : Int)) = true ∧
    strHasSub (maxRetriesMsg ((3 : Nat) : Int) "AVAILABLE") "AVAILABLE" = true) := by
  have hW : ∀ t, ∃ s, accWait t "ocid1.instance.w4" = Except.ok s ∧
      stringSliceContains ["PROVISIONING"] s = true :=
    fun t => ⟨"PROVISIONING", rfl, rfl⟩
  exact ⟨by omega, rfl, hW,
    waiter_exhausts_bounded_retries accWait "ocid1.instance.w4" ["PROVISIONING"]
      "AVAILABLE" ((3 : Nat) : Int) 5000 3 9 (by omega) rfl (by omega) hW⟩

/-- C5 counterexample: on a concrete wait specification with resource id
"ocid1.instance.oc1.test", neither the unexpected-state message nor the
retry-exhaustion message contains the resource id — the driver formats only
the states and the bound into them. -/
theorem waiter_error_omits_resource_id_cx :
    waitForResourceToReachState 1 accBad "ocid1.instance.oc1.test"
        ["PROVISIONING"] "AVAILABLE" 3 5000 =
      some ⟨.err "Unexpected resource state TERMINATED, expecting a waiting state [PROVISIONING] or terminal state  AVAILABLE ", 1, 0, 0⟩ ∧
    strHasSub "Unexpected resource state TERMINATED, expecting a waiting state [PROVISIONING] or terminal state  AVAILABLE "
      "ocid1.instance.oc1.test" = false ∧
    waitForResourceToReachState 3 accWait "ocid1.instance.oc1.test"
        ["PROVISIONING"] "AVAILABLE" 3 5000 =
      some ⟨.err "Maximum number of retries (3) exceeded; resource did not reach state AVAILABLE", 3, 3, 15000⟩ ∧
    strHasSub "Maximum number of retries (3) exceeded; resource did not reach state AVAILABLE"
      "ocid1.instance.oc1.test" = false :=
  ⟨by decide, by decide, by decide, by decide⟩

/-- C5 amended: the synthesized failure errors name the state observed and
the states expected (see the C3 and C4 theorems) but not the resource id:
the waiter's entire result, error messages included, is independent of the
resource id passed to it whenever the accessor ignores the id it is handed
(as both accessors in the driver do — their closures capture the id). -/
theorem waiter_result_independent_of_id
    (f : Nat → Except String String) (id₁ id₂ : String)
    (ws : List String) (term : String) (mr : Int) (wd fuel : Nat) :
    waitForResourceToReachState fuel (fun t _ => f t) id₁ ws term mr wd =
      waitForResourceToReachState fuel (fun t _ => f t) id₂ ws term mr wd :=
  waitLoop_id_irrel f id₁ id₂ ws term mr wd fuel 0

/-- C6: with `maxRetries = 0` (unbounded) and an accessor that returns
waiting states on its first `N` polls and the terminal state — not itself a
waiting state — on poll `N + 1`, the waiter terminates with success after
exactly `M = N + 1` accessor calls, for every `N` however large. -/
theorem waiter_unbounded_reaches_terminal
    (acc : Nat → String → Except String String) (id : String)
    (ws : List String) (term : String) (wd : Nat)
    (N fuel : Nat) (hfuel : N + 1 ≤ fuel)
    (hN : ∀ t, t < N → ∃ s, acc t id = .ok s ∧ stringSliceContains ws s = true)
    (hT : acc N id = .ok term)
    (hTW : stringSliceContains ws term = false) :
    waitForResourceToReachState fuel acc id ws term 0 wd =
      some ⟨.ok, N + 1, N, N * wd⟩ :=
  waiter_success_aux N fuel hfuel hN hT hTW (Or.inl rfl)

/-- C6 witness: seven waiting polls then the terminal state under unbounded
retries — success after exactly eight polls. -/
theorem waiter_unbounded_reaches_terminal_witness :
    (∀ t, t < 7 → ∃ s, accW7 t "ocid1.instance.w6" = Except.ok s ∧
        stringSliceContains ["PROVISIONING"] s = true) ∧
    accW7 7 "ocid1.instance.w6" = Except.ok "AVAILABLE" ∧
    stringSliceContains ["PROVISIONING"] "AVAILABLE" = false ∧
    waitForResourceToReachState 20 accW7 "ocid1.instance.w6"
        ["PROVISIONING"] "AVAILABLE" 0 5000 =
      some ⟨.ok, 8, 7, 35000⟩ := by
  have hN : ∀ t, t < 7 → ∃ s, accW7 t "ocid1.instance.w6" = Except.ok s ∧
      stringSliceContains ["PROVISIONING"] s = true :=
    fun t ht => ⟨"PROVISIONING", by simp [accW7, ht], rfl⟩
  exact ⟨hN, rfl, rfl,
    waiter_unbounded_reaches_terminal accW7 "ocid1.instance.w6" ["PROVISIONING"]
      "AVAILABLE" 5000 7 20 (by omega) hN rfl rfl⟩

/-- C7: `WaitForImageCreation` is exactly the generic waiter instantiated
with waiting set {"PROVISIONING"}, terminal state "AVAILABLE", the accessor
that fetches the image's lifecycle state from the provider's get-image
call, and `maxRetries = 0` (unbounded). -/
theorem WaitForImageCreation_eq_generic_waiter
    (fuel : Nat) (GetImage : Nat → String → Except String Image) (id : String) :
    WaitForImageCreation fuel GetImage id =
      waitForResourceToReachState fuel
        (fun t _ => (GetImage t id).map Image.LifecycleState)
        id ["PROVISIONING"] "AVAILABLE" 0 5000 := by
  unfold WaitForImageCreation
  have h : (fun t (_ : String) =>
      match GetImage t id with
      | .error e => (.error e : Except String String)
      | .ok image => .ok image.LifecycleState) =
      fun t (_ : String) => (GetImage t id).map Image.LifecycleState := by
    funext t s
    cases hg : GetImage t id <;> simp [Except.map]
  rw [h]

/-- C8: when the VNIC-attachment listing succeeds with an empty list,
`GetInstanceIP` immediately returns the distinct "instance has zero VNICs"
error — never an address — and performs zero `GetVnic` calls. -/
theorem getInstanceIP_zero_vnics_error
    (ListVnicAttachments : String → Except String (List VnicAttachment))
    (GetVnic : String → Except String Vnic) (usePrivateIP : Bool) (id : String)
    (h : ListVnicAttachments id = .ok []) :
    GetInstanceIP ListVnicAttachments GetVnic usePrivateIP id =
      (.error "instance has zero VNICs", 0) := by
  simp [GetInstanceIP, h]

/-- C8 witness: a provider with no attachments for the instance — the
distinct error and zero VNIC lookups. -/
theorem getInstanceIP_zero_vnics_error_witness :
    (fun (_ : String) => (Except.ok [] : Except String (List VnicAttachment))) "ocid1.instance.w8" = Except.ok [] ∧
    GetInstanceIP (fun _ => .ok [])
        (fun _ => .ok ⟨"10.0.0.1", "203.0.113.7"⟩) false "ocid1.instance.w8" =
      (.error "instance has zero VNICs", 0) :=
  ⟨rfl, getInstanceIP_zero_vnics_error (fun _ => .ok [])
    (fun _ => .ok ⟨"10.0.0.1", "203.0.113.7"⟩) false "ocid1.instance.w8" rfl⟩

/-- C9: when the terminal state is itself a member of the waiting set, its
observation is treated as a waiting observation, never as success — the
membership test runs before the terminal comparison.  With bound `k > 0`
and an accessor constantly answering that state the waiter exhausts its
retries after `k` polls, and with unbounded retries the loop never returns
within any budget, so it never returns success. -/
theorem terminal_in_wait_set_never_succeeds
    (acc : Nat → String → Except String String) (id : String)
    (ws : List String) (term : String) (wd : Nat)
    (hin : stringSliceContains ws term = true)
    (hacc : ∀ t, acc t id = .ok term) :
    (∀ k fuel : Nat, 0 < k → k ≤ fuel →
        waitForResourceToReachState fuel acc id ws term (k : Int) wd =
          some ⟨.err (maxRetriesMsg (k : Int) term), k, k, k * wd⟩) ∧
    (∀ fuel : Nat, waitForResourceToReachState fuel acc id ws term 0 wd = none) := by
  constructor
  · intro k fuel hk hfuel
    exact waiter_exhaust_aux k fuel hk rfl hfuel (fun t _ => ⟨term, hacc t, hin⟩)
  · intro fuel
    exact waiter_unbounded_waiting_aux rfl (fun t => ⟨term, hacc t, hin⟩) fuel 0

/-- C9 witness: waiting set {"RUNNING"} with terminal "RUNNING" — bounded
retries exhaust after two polls, and the unbounded loop never returns. -/
theorem terminal_in_wait_set_never_succeeds_witness :
    stringSliceContains ["RUNNING"] "RUNNING" = true ∧
    (∀ t, accRunning t "ocid1.instance.w9" = Except.ok "RUNNING") ∧
    waitForResourceToReachState 2 accRunning "ocid1.instance.w9"
        ["RUNNING"] "RUNNING" ((2 : Nat) : Int) 5000 =
      some ⟨.err (maxRetriesMsg ((2 : Nat) : Int) "RUNNING"), 2, 2, 10000⟩ ∧
    waitForResourceToReachState 6 accRunning "ocid1.instance.w9"
        ["RUNNING"] "RUNNING" 0 5000 = none := by
  have h := terminal_in_wait_set_never_succeeds accRunning "ocid1.instance.w9"
    ["RUNNING"] "RUNNING" 5000 rfl (fun t => rfl)
  exact ⟨rfl, fun t => rfl, h.1 2 2 (by omega) (by omega), h.2 6⟩

/-- C10: with a negative `maxRetries` the loop condition fails before the
first iteration: zero polls, zero sleeps, and the retry-exhaustion error is
returned immediately, whatever the accessor would have answered. -/
theorem negative_maxRetries_immediate_exhaustion
    (acc : Nat → String → Except String String) (id : String)
    (ws : List String) (term : String) (mr : Int) (wd : Nat) (fuel : Nat)
    (hmr : mr < 0) :
    waitForResourceToReachState fuel acc id ws term mr wd =
      some ⟨.err (maxRetriesMsg mr term), 0, 0, 0⟩ := by
  unfold waitForResourceToReachState
  have h : waitLoop acc id ws term mr wd fuel 0 =
      some ⟨.err (maxRetriesMsg mr term), 0, 0, 0 * wd⟩ :=
    waitLoop_cond_fail fuel 0 (by push_cast; omega)
  simpa using h

/-- C10 witness: `maxRetries = -1` returns the exhaustion error at once,
with zero polls and zero sleeps, even though the accessor would have
answered the terminal state. -/
theorem negative_maxRetries_immediate_exhaustion_witness :
    (-1 : Int) < 0 ∧
    waitForResourceToReachState 9 accW1 "ocid1.instance.w10"
        ["PROVISIONING"] "AVAILABLE" (-1) 5000 =
      some ⟨.err (maxRetriesMsg (-1) "AVAILABLE"), 0, 0, 0⟩ :=
  ⟨by omega, negative_maxRetries_immediate_exhaustion accW1 "ocid1.instance.w10"
    ["PROVISIONING"] "AVAILABLE" (-1) 5000 9 (by omega)⟩
